import Mathlib

/-!
Shallow embedding of the search/filter/pagination helpers and the booking
status endpoints of the Stylio backend (Express + Mongoose, JavaScript),
together with theorems settling the specification claims about them.

Sources embedded:
  * `src/controllers/booking.controller.js` — `updateBookingStatus`,
    `cancelBooking`, `confirmBooking`, `completeBooking`, `markNoShow`;
  * `src/server.js` — `buildPaginationResponse`, `calculateSkip`,
    `buildSortObject`, `buildSalonFilter`, `buildServiceFilter`,
    `buildGeoNearStage`, `buildSalonGeoSearchPipeline`;
  * `src/validations/search.validation.js` — `salonSearchSchema` (the
    radius and rating bounds and the min/max refinement);
  * the salon controller's `getSalons` sort resolution and the service
    controller's `getServices` sort resolution;
  * the shorts controller's `getShorts` pagination slice and `formatCount`.

Mongo query execution is modelled set-theoretically: a filter object is a
record of optional clauses and `salonMatches`/`serviceMatches` implements
the document-matching semantics of the operators actually used
(`$in` over an array field, `$gte`/`$lte`, plain equality).  The engine's
spherical distance computation is abstracted as a per-document rational
`distanceMeters` field: the `$geoNear` stage filters on it and sorts by it,
exactly as the engine guarantees.
-/

set_option autoImplicit false

namespace Stylio

/-! ### Booking status machine (`booking.controller.js`) -/

/-- The six booking statuses of the Mongoose `Booking` schema enum. -/
inductive BookingStatus
  | pending
  | confirmed
  | in_progress
  | completed
  | cancelled
  | no_show
  deriving DecidableEq, Repr

open BookingStatus

instance {ε α : Type} [DecidableEq ε] [DecidableEq α] : DecidableEq (Except ε α) := fun
  | .ok a, .ok b =>
      if h : a = b then .isTrue (by rw [h])
      else .isFalse (by intro he; cases he; exact h rfl)
  | .ok _, .error _ => .isFalse (by intro h; cases h)
  | .error _, .ok _ => .isFalse (by intro h; cases h)
  | .error e, .error f =>
      if h : e = f then .isTrue (by rw [h])
      else .isFalse (by intro he; cases he; exact h rfl)

instance : Fintype BookingStatus :=
  ⟨⟨{pending, confirmed, in_progress, completed, cancelled, no_show}, by decide⟩,
   by intro x; cases x <;> decide⟩

/-- The `allowedTransitions` table hard-coded in `updateBookingStatus`
(`booking.controller.js` lines 270–277). -/
def allowedTransitions : BookingStatus → List BookingStatus
  | pending => [confirmed, cancelled]
  | confirmed => [in_progress, cancelled, no_show]
  | in_progress => [completed, cancelled]
  | completed => []
  | cancelled => []
  | no_show => []

/-- Endpoint `PATCH /bookings/:id/status` (`updateBookingStatus`): given the stored
status and the requested status, either the new stored status (HTTP 200) or
the HTTP error code thrown.  The `validStatuses` membership check of the
handler is total on our typed statuses; the transition check
`allowedTransitions[booking.status]?.includes(newStatus)` is what remains. -/
def updateBookingStatus (cur new : BookingStatus) : Except Nat BookingStatus :=
  if (allowedTransitions cur).contains new then .ok new else .error 400

/-- Stored status after a `PATCH /bookings/:id/status` call: an error is
thrown before `booking.save()`, so the stored status is unchanged then. -/
def storedAfterUpdate (cur new : BookingStatus) : BookingStatus :=
  match updateBookingStatus cur new with
  | .ok s => s
  | .error _ => cur

/-- Endpoint `POST /bookings/:id/cancel` (`cancelBooking`, lines 159–196): rejected
with 400 only when the stored status is `completed` or `cancelled`;
otherwise the status is set to `cancelled`. -/
def cancelBooking (cur : BookingStatus) : Except Nat BookingStatus :=
  if cur = completed ∨ cur = cancelled then .error 400 else .ok cancelled

/-- Endpoint `POST /bookings/:id/confirm` (`confirmBooking`, lines 350–379):
only a `pending` booking can be confirmed. -/
def confirmBooking (cur : BookingStatus) : Except Nat BookingStatus :=
  if cur ≠ pending then .error 400 else .ok confirmed

/-- Endpoint `POST /bookings/:id/complete` (`completeBooking`, lines 386–415):
a `confirmed` or `in_progress` booking is set to `completed`. -/
def completeBooking (cur : BookingStatus) : Except Nat BookingStatus :=
  if ¬ (cur = confirmed ∨ cur = in_progress) then .error 400 else .ok completed

/-- Endpoint `POST /bookings/:id/no-show` (`markNoShow`, lines 422–451):
only a `confirmed` booking can be marked `no_show`. -/
def markNoShow (cur : BookingStatus) : Except Nat BookingStatus :=
  if cur ≠ confirmed then .error 400 else .ok no_show

/-- The allowed-transition table exactly as the specification states it:
pending→{confirmed,cancelled}; confirmed→{in_progress,cancelled,no_show};
in_progress→{completed,cancelled}; completed/cancelled/no_show terminal. -/
def specAllowed (cur new : BookingStatus) : Bool :=
  match cur, new with
  | pending, confirmed => true
  | pending, cancelled => true
  | confirmed, in_progress => true
  | confirmed, cancelled => true
  | confirmed, no_show => true
  | in_progress, completed => true
  | in_progress, cancelled => true
  | _, _ => false

/-- The terminal statuses of the specification's state machine. -/
def isTerminal (s : BookingStatus) : Bool :=
  match s with
  | completed => true
  | cancelled => true
  | no_show => true
  | _ => false

/-! ### Filter builders (`server.js`) -/

/-- Service mode: offered at the salon, at the customer's home, or both. -/
inductive Mode
  | toSalon
  | toHome
  | both
  deriving DecidableEq, Repr

/-- Target audience tag; `unisex` is the universal match tag. -/
inductive Audience
  | men
  | women
  | kids
  | unisex
  deriving DecidableEq, Repr

/-- The query parameters destructured by `buildSalonFilter`
(`server.js` lines 232–245).  Ids are abstracted as naturals; absent
parameters are `none`; the three feature flags arrive as booleans
(`hasParking === 'true'` coercion happens in the controller). -/
structure SalonFilterParams where
  cityId : Option Nat := none
  areaId : Option Nat := none
  mode : Option Mode := none
  audience : Option Audience := none
  minRating : Option ℚ := none
  maxRating : Option ℚ := none
  minPriceLevel : Option ℚ := none
  maxPriceLevel : Option ℚ := none
  hasParking : Bool := false
  hasWifi : Bool := false
  hasAc : Bool := false

/-- The Mongo filter object `buildSalonFilter` assembles: each field is a
clause of the query document (`none` = clause absent).  `isActiveVal` is
the value of the unconditional `isActive:` clause. -/
structure SalonFilter where
  isActiveVal : Bool
  area : Option Nat
  city : Option Nat
  modeIn : Option (List Mode)
  audienceIn : Option (List Audience)
  ratingGte : Option ℚ
  ratingLte : Option ℚ
  priceLevelGte : Option ℚ
  priceLevelLte : Option ℚ
  featParking : Bool
  featWifi : Bool
  featAc : Bool

/-- Function `buildSalonFilter` (`server.js` lines 232–292), clause by clause:
starts from `{ isActive: true }`; adds `area`/`city` equality clauses;
mode `both` becomes `$in: ['both','toSalon','toHome']`, any other mode `m`
becomes `$in: [m,'both']`; audience `a` becomes `$in: [a,'unisex']`;
rating and price-level bounds become `$gte`/`$lte` clauses exactly when
supplied; truthy feature flags add `features.* : true` clauses. -/
def buildSalonFilter (p : SalonFilterParams) : SalonFilter where
  isActiveVal := true
  area := p.areaId
  city := p.cityId
  modeIn :=
    match p.mode with
    | none => none
    | some Mode.both => some [Mode.both, Mode.toSalon, Mode.toHome]
    | some m => some [m, Mode.both]
  audienceIn :=
    match p.audience with
    | none => none
    | some a => some [a, Audience.unisex]
  ratingGte := p.minRating
  ratingLte := p.maxRating
  priceLevelGte := p.minPriceLevel
  priceLevelLte := p.maxPriceLevel
  featParking := p.hasParking
  featWifi := p.hasWifi
  featAc := p.hasAc

/-- A stored salon document, restricted to the fields the embedded
filters and pipeline stages read.  `distanceMeters` is the engine-computed
spherical distance from the current query point to the salon's stored
location (geo math is delegated to the database engine). -/
structure SalonDoc where
  sid : Nat
  area : Option Nat
  city : Option Nat
  isActive : Bool
  mode : Mode
  audience : List Audience
  averageRating : ℚ
  priceLevel : ℚ
  popularityScore : ℚ
  hasParking : Bool
  hasWifi : Bool
  hasAc : Bool
  distanceMeters : ℚ
  deriving DecidableEq, Repr

/-- Mongo matching semantics of a `SalonFilter` against a document, for
the operators the builder emits: plain equality on `isActive`, `area`,
`city` and the feature flags; `$in` on the scalar `mode` field (value is
one of the listed values); `$in` on the array `audience` field (some
element of the stored array is listed); `$gte`/`$lte` on numerics. -/
def salonMatches (f : SalonFilter) (s : SalonDoc) : Bool :=
  (s.isActive == f.isActiveVal) &&
  (match f.area with | none => true | some a => s.area == some a) &&
  (match f.city with | none => true | some c => s.city == some c) &&
  (match f.modeIn with | none => true | some ms => ms.contains s.mode) &&
  (match f.audienceIn with
    | none => true
    | some as => s.audience.any fun x => as.contains x) &&
  (match f.ratingGte with | none => true | some r => decide (r ≤ s.averageRating)) &&
  (match f.ratingLte with | none => true | some r => decide (s.averageRating ≤ r)) &&
  (match f.priceLevelGte with | none => true | some r => decide (r ≤ s.priceLevel)) &&
  (match f.priceLevelLte with | none => true | some r => decide (s.priceLevel ≤ r)) &&
  (!f.featParking || s.hasParking) &&
  (!f.featWifi || s.hasWifi) &&
  (!f.featAc || s.hasAc)

/-- The query parameters destructured by `buildServiceFilter`
(`server.js` lines 299–310). -/
structure ServiceFilterParams where
  salonId : Option Nat := none
  salon : Option Nat := none
  categoryId : Option Nat := none
  typeId : Option Nat := none
  mode : Option Mode := none
  audience : Option Audience := none
  minPrice : Option ℚ := none
  maxPrice : Option ℚ := none
  popular : Bool := false

/-- The Mongo filter object `buildServiceFilter` assembles. -/
structure ServiceFilter where
  isActiveVal : Bool
  salon : Option Nat
  serviceType : Option Nat
  modeIn : Option (List Mode)
  audienceIn : Option (List Audience)
  priceGte : Option ℚ
  priceLte : Option ℚ
  popularOnly : Bool

/-- Function `buildServiceFilter` (`server.js` lines 299–350): starts from
`{ isActive: true }`; `salonId || salon` becomes the `salon` clause;
`typeId` the `serviceType` clause; mode and audience clauses as in the
salon builder; price bounds as `$gte`/`$lte`; `popular` adds
`isPopular: true`.  (`categoryId` is destructured but unused here.) -/
def buildServiceFilter (p : ServiceFilterParams) : ServiceFilter where
  isActiveVal := true
  salon := p.salonId.orElse fun _ => p.salon
  serviceType := p.typeId
  modeIn :=
    match p.mode with
    | none => none
    | some Mode.both => some [Mode.both, Mode.toSalon, Mode.toHome]
    | some m => some [m, Mode.both]
  audienceIn :=
    match p.audience with
    | none => none
    | some a => some [a, Audience.unisex]
  priceGte := p.minPrice
  priceLte := p.maxPrice
  popularOnly := p.popular

/-- A stored service document, restricted to the fields the embedded
filter reads. -/
structure ServiceDoc where
  svid : Nat
  salon : Option Nat
  serviceType : Option Nat
  isActive : Bool
  mode : Mode
  audience : List Audience
  price : ℚ
  isPopular : Bool
  deriving DecidableEq, Repr

/-- Mongo matching semantics of a `ServiceFilter` against a document. -/
def serviceMatches (f : ServiceFilter) (s : ServiceDoc) : Bool :=
  (s.isActive == f.isActiveVal) &&
  (match f.salon with | none => true | some a => s.salon == some a) &&
  (match f.serviceType with | none => true | some c => s.serviceType == some c) &&
  (match f.modeIn with | none => true | some ms => ms.contains s.mode) &&
  (match f.audienceIn with
    | none => true
    | some as => s.audience.any fun x => as.contains x) &&
  (match f.priceGte with | none => true | some r => decide (r ≤ s.price)) &&
  (match f.priceLte with | none => true | some r => decide (s.price ≤ r)) &&
  (!f.popularOnly || s.isPopular)

/-! ### Validation (`search.validation.js`, `salonSearchSchema`) -/

/-- The rating checks of `salonSearchSchema`: `minRating`/`maxRating` are
each optional numbers in [0,5], and the `.refine` step rejects
`minRating > maxRating` when both are present.  `true` = validation
passes; on `false` the request is rejected with HTTP 400 before any
query is executed. -/
def validateSalonSearchRatings (minRating maxRating : Option ℚ) : Bool :=
  (match minRating with | none => true | some r => decide (0 ≤ r ∧ r ≤ 5)) &&
  (match maxRating with | none => true | some r => decide (0 ≤ r ∧ r ≤ 5)) &&
  (match minRating, maxRating with
    | some a, some b => decide (a ≤ b)
    | _, _ => true)

/-- The radius field of `salonSearchSchema`:
`z.coerce.number().min(100).max(20000).default(5000)` — an absent radius
defaults to 5000, a present one must lie in [100, 20000] or the request
is rejected. -/
def validateRadius : Option ℚ → Except String ℚ
  | none => .ok 5000
  | some r =>
      if 100 ≤ r ∧ r ≤ 20000 then .ok r
      else .error "Search radius in meters (100-20000)"

/-! ### Sort resolution (`server.js` `buildSortObject`, the salon
controller's `getSalons`, the service controller's `getServices`) -/

/-- The `defaultMapping` object of `buildSortObject`
(`server.js` lines 207–214). -/
def defaultSortMapping (k : String) : Option String :=
  if k == "rating" then some "averageRating"
  else if k == "price" then some "priceLevel"
  else if k == "popular" then some "popularityScore"
  else if k == "name" then some "name"
  else if k == "distance" then some "distance"
  else if k == "newest" then some "createdAt"
  else none

/-- The JavaScript direction coercion `sortOrder === 'asc' ? 1 : -1`. -/
def jsOrder (sortOrder : String) : Int := if sortOrder == "asc" then 1 else -1

/-- Function `buildSortObject` (`server.js` lines 206–221) without a caller-supplied
`fieldMapping` override (every call site in scope passes none): the sort
field is `mapping[sortBy] || sortBy`, i.e. an unknown key is used verbatim
as the field name.  A sort instruction is an ordered list of
(field, direction) pairs. -/
def buildSortObject (sortBy sortOrder : String) : List (String × Int) :=
  [((defaultSortMapping sortBy).getD sortBy, jsOrder sortOrder)]

/-- The sort resolution of the salon controller's `getSalons`: explicit
branches for popular/rating/price/name, every other key falls through to
`buildSortObject` ("legacy sort behavior"). -/
def resolveSalonSort (sortBy sortOrder : String) : List (String × Int) :=
  if sortBy == "popular" then [("popularityScore", jsOrder sortOrder)]
  else if sortBy == "rating" then [("averageRating", jsOrder sortOrder)]
  else if sortBy == "price" then [("priceLevel", jsOrder sortOrder)]
  else if sortBy == "name" then [("name", jsOrder sortOrder)]
  else buildSortObject sortBy sortOrder

/-- The sort resolution of the service controller's `getServices`
(lines 191–201): branches for price/popular/name/newest, every other key
falls to the fixed default `{ price: 1 }`. -/
def resolveServiceSort (sortBy sortOrder : String) : List (String × Int) :=
  if sortBy == "price" then [("price", jsOrder sortOrder)]
  else if sortBy == "popular" then [("bookingCount", -1), ("isPopular", -1)]
  else if sortBy == "name" then [("name", jsOrder sortOrder)]
  else if sortBy == "newest" then [("createdAt", -1)]
  else [("price", 1)]

/-! ### Pagination helpers (`server.js`, shorts controller) -/

/-- The response object of `buildPaginationResponse`. -/
structure PaginationResponse where
  page : Nat
  limit : Nat
  total : Nat
  totalPages : Nat
  hasNextPage : Bool
  hasPrevPage : Bool
  deriving DecidableEq, Repr

/-- Function `buildPaginationResponse` (`server.js` lines 175–185).  For `limit ≥ 1`
the JavaScript `Math.ceil(total / limit)` on naturals equals the ceiling
division `(total + limit - 1) / limit`. -/
def buildPaginationResponse (page limit total : Nat) : PaginationResponse where
  page := page
  limit := limit
  total := total
  totalPages := (total + limit - 1) / limit
  hasNextPage := page < (total + limit - 1) / limit
  hasPrevPage := 1 < page

/-- Function `calculateSkip` (`server.js` line 193): `(page - 1) * limit`. -/
def calculateSkip (page limit : Nat) : Nat := (page - 1) * limit

/-- The page slice a skip/limit query returns over a stably ordered
result list: skip `(page-1)*limit` items, take at most `limit`. -/
def pageSlice {α : Type} (l : List α) (page limit : Nat) : List α :=
  (l.drop (calculateSkip page limit)).take limit

/-- The page slice of the shorts controller's `getShorts`:
`skip = (page-1)*limit` on the raw limit, but the query's `.limit()` uses
`limitNum = Math.min(limit, 50)`. -/
def shortsPageSlice {α : Type} (l : List α) (page limit : Nat) : List α :=
  (l.drop (calculateSkip page limit)).take (min limit 50)

/-- Concatenation of the slices returned for pages 1..pages, in order. -/
def concatPages {α : Type} (slice : List α → Nat → Nat → List α)
    (l : List α) (limit pages : Nat) : List α :=
  (List.range pages).flatMap fun i => slice l (i + 1) limit

/-! ### Count formatting (shorts controller, `formatCount`) -/

/-- The decimal string for `t/10` with one decimal place, with a trailing
".0" trimmed — the effect of `.toFixed(1).replace(/\.0$/, '')` on a
one-decimal value whose tenths digit is `t % 10`. -/
def renderTenths (t : Nat) : String :=
  if t % 10 == 0 then Nat.repr (t / 10)
  else Nat.repr (t / 10) ++ "." ++ Nat.repr (t % 10)

/-- Function `formatCount` (shorts controller lines 61–70).  `(num/d).toFixed(1)`
rounds `num/d` to the nearest tenth (ties upward), i.e. its tenths value
is `(10*num + d/2) / d` in exact natural arithmetic, with d = 1000000 for
the "M" branch and d = 1000 for the "K" branch; `!num` is `num = 0` on
naturals. -/
def formatCount (num : Nat) : String :=
  if num == 0 then "0"
  else if num ≥ 1000000 then renderTenths ((10 * num + 500000) / 1000000) ++ "M"
  else if num ≥ 1000 then renderTenths ((10 * num + 500) / 1000) ++ "K"
  else Nat.repr num

/-! ### Geo search pipeline (`server.js` `buildGeoNearStage`,
`buildSalonGeoSearchPipeline`) and its evaluation semantics -/

/-- An aggregation stage of the salon geo-search pipeline.  The lookup,
unwind and project stages carry no data the embedded semantics reads
beyond what `SalonDoc` tracks, so they are bare constructors. -/
inductive Stage
  | geoNear (lng lat : ℚ) (maxDistance : ℚ) (query : SalonFilter)
  | lookupArea
  | unwindArea
  | lookupCity
  | unwindCity
  | project
  | sortStage (fields : List (String × Int))
  | facet (skip takeN : Nat)

/-- The parameters destructured by `buildSalonGeoSearchPipeline`
(`server.js` lines 385–394), with their JavaScript destructuring
defaults (`radius = 5000`, `page = 1`, `limit = 20`,
`sortBy = 'distance'`, `sortOrder = 'asc'`) modelled as `Option.getD`. -/
structure GeoSearchParams where
  lat : ℚ
  lng : ℚ
  radius : Option ℚ := none
  page : Option Nat := none
  limit : Option Nat := none
  sortBy : Option String := none
  sortOrder : Option String := none
  filterParams : SalonFilterParams := {}

/-- Function `buildGeoNearStage` (`server.js` lines 364–377): a `$geoNear` stage
with `near` = the query point, `maxDistance` = the radius and `query` =
the extra match filter. -/
def buildGeoNearStage (lat lng radius : ℚ) (matchFilter : SalonFilter) : Stage :=
  .geoNear lng lat radius matchFilter

/-- Function `buildSalonGeoSearchPipeline` (`server.js` lines 384–490), stage by
stage: `$geoNear` first with the salon filter folded into its `query`;
area and city lookups with unwinds; the projection; the sort (the
`distance` key sorts the computed `distanceInMeters` field, any other key
goes through `buildSortObject`); and the `$facet` whose `data` branch is
`$skip (page-1)*limit` then `$limit limit`. -/
def buildSalonGeoSearchPipeline (p : GeoSearchParams) : List Stage :=
  let radius := p.radius.getD 5000
  let page := p.page.getD 1
  let limit := p.limit.getD 20
  let sortBy := p.sortBy.getD "distance"
  let sortOrder := p.sortOrder.getD "asc"
  let filter := buildSalonFilter p.filterParams
  [buildGeoNearStage p.lat p.lng radius filter,
   .lookupArea, .unwindArea, .lookupCity, .unwindCity,
   .project,
   .sortStage (if sortBy == "distance"
     then [("distanceInMeters", jsOrder sortOrder)]
     else buildSortObject sortBy sortOrder),
   .facet (calculateSkip page limit) limit]

/-- Stable insertion of `x` into `l` before the first element `y` with
`le x y`. -/
def insertLe {α : Type} (le : α → α → Bool) (x : α) : List α → List α
  | [] => [x]
  | y :: ys => if le x y then x :: y :: ys else y :: insertLe le x ys

/-- Stable insertion sort by a boolean comparison. -/
def insertionSortLe {α : Type} (le : α → α → Bool) : List α → List α
  | [] => []
  | x :: xs => insertLe le x (insertionSortLe le xs)

/-- The numeric fields of the projected document a `$sort` key can refer
to; a key outside this set (e.g. the string field `name`) has no tracked
numeric value and compares as equal here. -/
def docKeyQ (field : String) (d : SalonDoc) : Option ℚ :=
  if field == "distanceInMeters" then some d.distanceMeters
  else if field == "averageRating" then some d.averageRating
  else if field == "priceLevel" then some d.priceLevel
  else if field == "popularityScore" then some d.popularityScore
  else none

/-- Lexicographic "comes no later than" for a `$sort` field list:
direction 1 = ascending, otherwise descending; untracked or missing keys
compare as equal. -/
def fieldsLe : List (String × Int) → SalonDoc → SalonDoc → Bool
  | [], _, _ => true
  | (f, o) :: rest, a, b =>
      match docKeyQ f a, docKeyQ f b with
      | some x, some y =>
          if x = y then fieldsLe rest a b
          else if o = 1 then decide (x ≤ y) else decide (y ≤ x)
      | _, _ => fieldsLe rest a b

/-- One aggregation stage over the candidate document list.  `$geoNear`
keeps the documents within `maxDistance` of the query point that match
the folded-in `query` filter, ordered by distance ascending (the engine's
contract).  Lookups and unwinds (`preserveNullAndEmptyArrays: true`)
enrich each document one-to-one and change none of the tracked fields.
`$project` rounds `distanceInMeters` to whole units
(`$round: [.., 0]`, here nearest integer).  `$sort` reorders stably.
The `$facet` data branch is `$skip` then `$limit`. -/
def evalStage (docs : List SalonDoc) : Stage → List SalonDoc
  | .geoNear _ _ maxD q =>
      insertionSortLe (fun a b => decide (a.distanceMeters ≤ b.distanceMeters))
        (docs.filter fun d => decide (d.distanceMeters ≤ maxD) && salonMatches q d)
  | .lookupArea => docs
  | .unwindArea => docs
  | .lookupCity => docs
  | .unwindCity => docs
  | .project =>
      docs.map fun d => { d with distanceMeters := (round d.distanceMeters : ℤ) }
  | .sortStage fields => insertionSortLe (fieldsLe fields) docs
  | .facet skip takeN => (docs.drop skip).take takeN

/-- Run an aggregation pipeline over the stored collection (the engine
executes the stages in order; the response's `data` is the final list). -/
def runPipeline (stages : List Stage) (docs : List SalonDoc) : List SalonDoc :=
  stages.foldl evalStage docs

/-- C1. The status-update endpoint succeeds exactly on the pairs of the
allowed-transition table; outside the table it throws 400 and the stored
status is unchanged. -/
theorem updateBookingStatus_follows_table :
    ∀ cur new : BookingStatus,
      updateBookingStatus cur new =
        (if specAllowed cur new then .ok new else .error 400) ∧
      storedAfterUpdate cur new = (if specAllowed cur new then new else cur) := by
  decide

/-- C2 counterexample.  The cancel endpoint succeeds on a `no_show`
booking (its guard only checks `completed`/`cancelled`), changing the
status of a terminal booking along the edge no_show→cancelled, which the
specification's transition graph does not contain. -/
theorem cancelBooking_moves_terminal_no_show :
    cancelBooking no_show = .ok cancelled ∧
    isTerminal no_show = true ∧
    specAllowed no_show cancelled = false := by
  decide

/-- C2 amended.  Across the status-changing endpoints, every successful
status change follows an edge of the specification's graph except for
exactly two extra edges: the cancel endpoint also accepts `no_show`
bookings (no_show→cancelled), and the complete endpoint also accepts
`confirmed` bookings (confirmed→completed).  The status-update, confirm
and no-show endpoints follow the graph exactly, so they never move a
terminal booking; the complete endpoint's extra edge starts at the
non-terminal `confirmed`, so among the four endpoints only cancel can
change a terminal (`no_show`) booking. -/
theorem bookingEndpoints_follow_graph_except_two_edges :
    ∀ cur : BookingStatus,
      ((updateBookingStatus cur · ) = fun new =>
        if specAllowed cur new then .ok new else .error 400) ∧
      confirmBooking cur =
        (if specAllowed cur confirmed then .ok confirmed else .error 400) ∧
      markNoShow cur =
        (if specAllowed cur no_show then .ok no_show else .error 400) ∧
      completeBooking cur =
        (if specAllowed cur completed || cur == confirmed
          then .ok completed else .error 400) ∧
      cancelBooking cur =
        (if specAllowed cur cancelled || cur == no_show
          then .ok cancelled else .error 400) := by
  intro cur
  refine ⟨funext fun new => ?_, ?_, ?_, ?_, ?_⟩ <;> revert cur <;> first
    | (intro cur; revert new; revert cur; decide)
    | decide


/-- A sample salon document tagged `unisex`, within 4000 distance units. -/
def sampleSalonDoc : SalonDoc where
  sid := 7
  area := some 3
  city := some 1
  isActive := true
  mode := Mode.toSalon
  audience := [Audience.unisex]
  averageRating := 4
  priceLevel := 2
  popularityScore := 50
  hasParking := false
  hasWifi := false
  hasAc := false
  distanceMeters := 4000

/-- A sample service document with mode `both`. -/
def sampleServiceDoc : ServiceDoc where
  svid := 9
  salon := some 7
  serviceType := some 2
  isActive := true
  mode := Mode.both
  audience := [Audience.men]
  price := 300
  isPopular := false

/-! ### Helper lemmas -/

theorem mem_insertLe {α : Type} (le : α → α → Bool) (x a : α) :
    ∀ l : List α, (a ∈ insertLe le x l ↔ a = x ∨ a ∈ l)
  | [] => by simp [insertLe]
  | y :: ys => by
      by_cases h : le x y
      · simp [insertLe, h]
      · simp only [insertLe, h, Bool.false_eq_true, if_false, List.mem_cons,
          mem_insertLe le x a ys]
        tauto

theorem mem_insertionSortLe {α : Type} (le : α → α → Bool) (a : α) :
    ∀ l : List α, (a ∈ insertionSortLe le l ↔ a ∈ l)
  | [] => by simp [insertionSortLe]
  | y :: ys => by
      simp [insertionSortLe, mem_insertLe, mem_insertionSortLe le a ys]

/-- JavaScript `Math.ceil(total/limit)` as a rational ceiling equals the natural
ceiling division used in the embedding. -/
theorem ceil_div_eq_nat_ceil_div (total limit : Nat) (hl : 1 ≤ limit) :
    ⌈(total : ℚ) / (limit : ℚ)⌉ = ((total + limit - 1) / limit : ℕ) := by
  have hl0 : (0 : ℚ) < (limit : ℚ) := by exact_mod_cast hl
  set q := (total + limit - 1) / limit with hq
  have hdm := Nat.div_add_mod (total + limit - 1) limit
  have hml : (total + limit - 1) % limit < limit := Nat.mod_lt _ (by omega)
  have h1 : total ≤ q * limit := by
    rw [mul_comm]
    set P := limit * q with hP
    set r := (total + limit - 1) % limit with hr
    omega
  have h2 : q * limit < total + limit := by
    rw [mul_comm]
    set P := limit * q with hP
    set r := (total + limit - 1) % limit with hr
    omega
  have h1' : (total : ℚ) ≤ (q : ℚ) * limit := by exact_mod_cast h1
  have h2' : (q : ℚ) * limit < (total : ℚ) + limit := by exact_mod_cast h2
  rw [Int.ceil_eq_iff]
  refine ⟨?_, ?_⟩
  · push_cast
    rw [lt_div_iff₀ hl0]
    nlinarith [h2']
  · push_cast
    rw [div_le_iff₀ hl0]
    exact h1'

/-- C4. `buildPaginationResponse` returns `totalPages = ceil(total/limit)`,
`hasNextPage = (page < totalPages)`, `hasPrevPage = (page > 1)`, and its
`hasNextPage` is true exactly when `page * limit < total`. -/
theorem buildPaginationResponse_correct (page limit total : Nat)
    (hp : 1 ≤ page) (hl : 1 ≤ limit) :
    ((buildPaginationResponse page limit total).totalPages : ℤ)
        = ⌈(total : ℚ) / (limit : ℚ)⌉ ∧
    (buildPaginationResponse page limit total).hasNextPage
        = decide (page < (buildPaginationResponse page limit total).totalPages) ∧
    (buildPaginationResponse page limit total).hasPrevPage = decide (1 < page) ∧
    ((buildPaginationResponse page limit total).hasNextPage = true ↔
        page * limit < total) := by
  have hceil := ceil_div_eq_nat_ceil_div total limit hl
  have hl0 : (0 : ℚ) < (limit : ℚ) := by exact_mod_cast hl
  refine ⟨by rw [hceil]; rfl, rfl, rfl, ?_⟩
  show decide (page < (total + limit - 1) / limit) = true ↔ page * limit < total
  rw [decide_eq_true_eq]
  have hstep : page < (total + limit - 1) / limit ↔ ((page : ℚ)) < total / limit := by
    rw [show ((total + limit - 1) / limit : ℕ) = (((total + limit - 1) / limit : ℕ) : ℤ).toNat from rfl]
    constructor
    · intro h
      have : ((page : ℤ)) < ⌈(total : ℚ) / (limit : ℚ)⌉ := by
        rw [hceil]; exact_mod_cast h
      exact Int.lt_ceil.mp this
    · intro h
      have : ((page : ℤ)) < ⌈(total : ℚ) / (limit : ℚ)⌉ := Int.lt_ceil.mpr h
      rw [hceil] at this
      exact_mod_cast this
  rw [hstep, lt_div_iff₀ hl0]
  constructor
  · intro h
    exact_mod_cast h
  · intro h
    exact_mod_cast h

/-- C4 witness: the theorem applied at page 2, limit 10, total 25. -/
theorem buildPaginationResponse_correct_witness :
    ((buildPaginationResponse 2 10 25).totalPages : ℤ)
        = ⌈(25 : ℚ) / (10 : ℚ)⌉ ∧
    (buildPaginationResponse 2 10 25).hasNextPage
        = decide (2 < (buildPaginationResponse 2 10 25).totalPages) ∧
    (buildPaginationResponse 2 10 25).hasPrevPage = decide (1 < 2) ∧
    ((buildPaginationResponse 2 10 25).hasNextPage = true ↔ 2 * 10 < 25) :=
  buildPaginationResponse_correct 2 10 25 (by decide) (by decide)

/-- C10. For every combination of query parameters, the filters built by
`buildSalonFilter` and `buildServiceFilter` carry the `isActive: true`
clause, so a record whose `isActive` flag is false never matches. -/
theorem builtFilters_exclude_inactive (p : SalonFilterParams)
    (q : ServiceFilterParams) (s : SalonDoc) (t : ServiceDoc)
    (hs : s.isActive = false) (ht : t.isActive = false) :
    (buildSalonFilter p).isActiveVal = true ∧
    (buildServiceFilter q).isActiveVal = true ∧
    salonMatches (buildSalonFilter p) s = false ∧
    serviceMatches (buildServiceFilter q) t = false := by
  refine ⟨rfl, rfl, ?_, ?_⟩
  · simp [salonMatches, buildSalonFilter, hs]
  · simp [serviceMatches, buildServiceFilter, ht]

/-- C10 witness: a concrete inactive salon and service never match the
filters built from empty parameter sets. -/
theorem builtFilters_exclude_inactive_witness :
    (buildSalonFilter {}).isActiveVal = true ∧
    (buildServiceFilter {}).isActiveVal = true ∧
    salonMatches (buildSalonFilter {})
      { sid := 1, area := none, city := none, isActive := false,
        mode := Mode.toSalon, audience := [], averageRating := 4,
        priceLevel := 2, popularityScore := 10, hasParking := false,
        hasWifi := false, hasAc := false, distanceMeters := 100 } = false ∧
    serviceMatches (buildServiceFilter {})
      { svid := 1, salon := none, serviceType := none, isActive := false,
        mode := Mode.toHome, audience := [], price := 300,
        isPopular := false } = false :=
  builtFilters_exclude_inactive {} {} _ _ rfl rfl

/-- C5. A requested audience `a` builds the clause `$in: [a, unisex]`, so a
record whose audience tags include `a` or include `unisex` satisfies it
(the full filter matches such a record exactly when the same filter
without the audience clause does); a requested mode `m ∈ {toSalon,toHome}`
builds `$in: [m, both]`, so a record with mode `m` or `both` satisfies it
— for both the salon and the service filter builders. -/
theorem universalTags_match (p : SalonFilterParams) (q : ServiceFilterParams)
    (a : Audience) (m : Mode) (s : SalonDoc) (t : ServiceDoc) :
    (p.audience = some a →
      (buildSalonFilter p).audienceIn = some [a, Audience.unisex] ∧
      ((a ∈ s.audience ∨ Audience.unisex ∈ s.audience) →
        salonMatches (buildSalonFilter p) s
          = salonMatches (buildSalonFilter { p with audience := none }) s)) ∧
    ((m = Mode.toSalon ∨ m = Mode.toHome) → p.mode = some m →
      (buildSalonFilter p).modeIn = some [m, Mode.both] ∧
      ((s.mode = m ∨ s.mode = Mode.both) →
        salonMatches (buildSalonFilter p) s
          = salonMatches (buildSalonFilter { p with mode := none }) s)) ∧
    (q.audience = some a →
      (buildServiceFilter q).audienceIn = some [a, Audience.unisex] ∧
      ((a ∈ t.audience ∨ Audience.unisex ∈ t.audience) →
        serviceMatches (buildServiceFilter q) t
          = serviceMatches (buildServiceFilter { q with audience := none }) t)) ∧
    ((m = Mode.toSalon ∨ m = Mode.toHome) → q.mode = some m →
      (buildServiceFilter q).modeIn = some [m, Mode.both] ∧
      ((t.mode = m ∨ t.mode = Mode.both) →
        serviceMatches (buildServiceFilter q) t
          = serviceMatches (buildServiceFilter { q with mode := none }) t)) := by
  refine ⟨?_, ?_, ?_, ?_⟩
  · intro hpa
    refine ⟨by simp [buildSalonFilter, hpa], ?_⟩
    intro hs
    have hany : s.audience.any (fun x => [a, Audience.unisex].contains x) = true := by
      rcases hs with h | h
      · exact List.any_eq_true.mpr ⟨a, h, by simp⟩
      · exact List.any_eq_true.mpr ⟨Audience.unisex, h, by simp⟩
    simp only [salonMatches, buildSalonFilter, hpa, hany]
  · rintro (rfl | rfl) hpm
    all_goals refine ⟨by simp [buildSalonFilter, hpm], ?_⟩
    all_goals intro hs
    all_goals
      have hcont : ∀ mm : Mode, (s.mode = mm ∨ s.mode = Mode.both) →
          ([mm, Mode.both].contains s.mode) = true := by
        rintro mm (h | h) <;> simp [h]
    all_goals simp only [salonMatches, buildSalonFilter, hpm, hcont _ hs]
  · intro hqa
    refine ⟨by simp [buildServiceFilter, hqa], ?_⟩
    intro ht
    have hany : t.audience.any (fun x => [a, Audience.unisex].contains x) = true := by
      rcases ht with h | h
      · exact List.any_eq_true.mpr ⟨a, h, by simp⟩
      · exact List.any_eq_true.mpr ⟨Audience.unisex, h, by simp⟩
    simp only [serviceMatches, buildServiceFilter, hqa, hany]
  · rintro (rfl | rfl) hqm
    all_goals refine ⟨by simp [buildServiceFilter, hqm], ?_⟩
    all_goals intro ht
    all_goals
      have hcont : ∀ mm : Mode, (t.mode = mm ∨ t.mode = Mode.both) →
          ([mm, Mode.both].contains t.mode) = true := by
        rintro mm (h | h) <;> simp [h]
    all_goals simp only [serviceMatches, buildServiceFilter, hqm, hcont _ ht]

/-- C5 witness: a `unisex`-tagged salon satisfies the `women` audience
filter, and a mode-`both` service satisfies the `toHome` mode filter. -/
theorem universalTags_match_witness :
    (buildSalonFilter { audience := some Audience.women }).audienceIn
        = some [Audience.women, Audience.unisex] ∧
    salonMatches (buildSalonFilter { audience := some Audience.women })
        sampleSalonDoc
      = salonMatches (buildSalonFilter {}) sampleSalonDoc ∧
    (buildServiceFilter { mode := some Mode.toHome }).modeIn
        = some [Mode.toHome, Mode.both] ∧
    serviceMatches (buildServiceFilter { mode := some Mode.toHome })
        sampleServiceDoc
      = serviceMatches (buildServiceFilter {}) sampleServiceDoc := by
  obtain ⟨h1, h2, h3, h4⟩ := universalTags_match
    { audience := some Audience.women } { mode := some Mode.toHome }
    Audience.women Mode.toHome sampleSalonDoc sampleServiceDoc
  have ha := h1 rfl
  have hm := h4 (Or.inr rfl) rfl
  exact ⟨ha.1, ha.2 (Or.inr (by simp [sampleSalonDoc])), hm.1,
    hm.2 (Or.inr rfl)⟩

/-- C6. `minRating > maxRating` (both supplied) fails the validation
refinement, so the request is rejected before any query; when validation
passes both bounds hold; with both supplied the built filter carries
`$gte minRating` and `$lte maxRating` so every matching salon's rating
lies in the interval; with only one supplied a one-sided bound is built. -/
theorem ratingFilter_bounds (p : SalonFilterParams) (s : SalonDoc) (mn mx : ℚ) :
    (mn > mx → validateSalonSearchRatings (some mn) (some mx) = false) ∧
    (validateSalonSearchRatings (some mn) (some mx) = true → mn ≤ mx) ∧
    (p.minRating = some mn → p.maxRating = some mx →
      (buildSalonFilter p).ratingGte = some mn ∧
      (buildSalonFilter p).ratingLte = some mx ∧
      (salonMatches (buildSalonFilter p) s = true →
        mn ≤ s.averageRating ∧ s.averageRating ≤ mx)) ∧
    (p.minRating = some mn → p.maxRating = none →
      (buildSalonFilter p).ratingGte = some mn ∧
      (buildSalonFilter p).ratingLte = none ∧
      (salonMatches (buildSalonFilter p) s = true → mn ≤ s.averageRating)) ∧
    (p.minRating = none → p.maxRating = some mx →
      (buildSalonFilter p).ratingGte = none ∧
      (buildSalonFilter p).ratingLte = some mx ∧
      (salonMatches (buildSalonFilter p) s = true → s.averageRating ≤ mx)) := by
  refine ⟨?_, ?_, ?_, ?_, ?_⟩
  · intro h
    have hn : ¬ (mn ≤ mx) := not_le.mpr h
    simp [validateSalonSearchRatings, hn]
  · intro h
    simp [validateSalonSearchRatings] at h
    tauto
  · intro h1 h2
    refine ⟨by simp [buildSalonFilter, h1], by simp [buildSalonFilter, h2], ?_⟩
    intro hm
    simp [salonMatches, buildSalonFilter, h1, h2] at hm
    exact ⟨by tauto, by tauto⟩
  · intro h1 h2
    refine ⟨by simp [buildSalonFilter, h1], by simp [buildSalonFilter, h2], ?_⟩
    intro hm
    simp [salonMatches, buildSalonFilter, h1, h2] at hm
    tauto
  · intro h1 h2
    refine ⟨by simp [buildSalonFilter, h1], by simp [buildSalonFilter, h2], ?_⟩
    intro hm
    simp [salonMatches, buildSalonFilter, h1, h2] at hm
    tauto

/-- C6 witness: `minRating 5 > maxRating 2` is rejected by validation,
and the sample salon matched through a `[1,4]` rating filter indeed has
its rating in `[1,4]`. -/
theorem ratingFilter_bounds_witness :
    validateSalonSearchRatings (some 5) (some 2) = false ∧
    ((1 : ℚ) ≤ sampleSalonDoc.averageRating ∧
      sampleSalonDoc.averageRating ≤ 4) := by
  refine ⟨(ratingFilter_bounds {} sampleSalonDoc 5 2).1 (by norm_num), ?_⟩
  exact ((ratingFilter_bounds { minRating := some 1, maxRating := some 4 }
    sampleSalonDoc 1 4).2.2.1 rfl rfl).2.2 (by decide)

/-- C8 counterexample.  On the salon side an unknown sort key is used
verbatim as the sort field (`mapping[sortBy] || sortBy`), not replaced by
the fixed default `popularityScore` descending. -/
theorem unknownSortKey_not_fixed_default :
    resolveSalonSort "bookingCount" "desc" = [("bookingCount", -1)] ∧
    resolveSalonSort "bookingCount" "desc" ≠ [("popularityScore", -1)] ∧
    buildSortObject "bookingCount" "desc" = [("bookingCount", -1)] := by
  refine ⟨rfl, by decide, rfl⟩

/-- C8 amended.  For every sort key outside the known set, the service
listing resolves to the fixed default price ascending, but the salon
listing (through `buildSortObject`) uses the unknown key verbatim as the
sort field with the requested direction. -/
theorem unknownSortKey_fallback (key order : String)
    (hk : key ∉ ["popular", "rating", "price", "name", "distance", "newest"]) :
    resolveServiceSort key order = [("price", 1)] ∧
    resolveSalonSort key order = [(key, jsOrder order)] ∧
    buildSortObject key order = [(key, jsOrder order)] := by
  simp only [List.mem_cons, List.not_mem_nil, or_false, not_or] at hk
  obtain ⟨h1, h2, h3, h4, h5, h6⟩ := hk
  have e1 : (key == "popular") = false := beq_eq_false_iff_ne.mpr h1
  have e2 : (key == "rating") = false := beq_eq_false_iff_ne.mpr h2
  have e3 : (key == "price") = false := beq_eq_false_iff_ne.mpr h3
  have e4 : (key == "name") = false := beq_eq_false_iff_ne.mpr h4
  have e5 : (key == "distance") = false := beq_eq_false_iff_ne.mpr h5
  have e6 : (key == "newest") = false := beq_eq_false_iff_ne.mpr h6
  refine ⟨?_, ?_, ?_⟩ <;>
    simp [resolveServiceSort, resolveSalonSort, buildSortObject,
      defaultSortMapping, e1, e2, e3, e4, e5, e6]

/-- C8 amended witness: the fallback at the concrete unknown key
`bookingCount` with ascending order. -/
theorem unknownSortKey_fallback_witness :
    resolveServiceSort "bookingCount" "asc" = [("price", 1)] ∧
    resolveSalonSort "bookingCount" "asc" = [("bookingCount", jsOrder "asc")] ∧
    buildSortObject "bookingCount" "asc" = [("bookingCount", jsOrder "asc")] :=
  unknownSortKey_fallback "bookingCount" "asc" (by decide)

/-- Rounding `n/d` to one decimal place (ties upward) gives the tenths
value `(10*n + d/2) / d` in exact natural arithmetic, for even `d > 0`. -/
theorem round_div_tenths (n d : ℕ) (hd : 0 < d) (h2 : 2 ∣ d) :
    round ((n : ℚ) / d * 10) = ((10 * n + d / 2) / d : ℕ) := by
  have hd0 : ((d : ℚ)) ≠ 0 := Nat.cast_ne_zero.mpr (by omega)
  have hhalf : ((d / 2 : ℕ) : ℚ) = (d : ℚ) / 2 := Nat.cast_div h2 two_ne_zero
  have hx : (n : ℚ) / d * 10 + 1/2 = ((10 * n + d / 2 : ℕ) : ℚ) / d := by
    push_cast [hhalf]
    field_simp
    ring
  rw [round_eq, hx]
  have hM : (0:ℚ) ≤ ((10 * n + d / 2 : ℕ) : ℚ) / d := by positivity
  rw [← Int.natCast_floor_eq_floor hM, Nat.floor_div_nat, Nat.floor_natCast]

/-- C9. `formatCount` returns the decimal digits below 1000; above, it
divides by 1000 (K) or 1000000 (M), rounds to one decimal place and trims
a trailing ".0"; in particular on the four specified sample inputs. -/
theorem formatCount_correct :
    formatCount 950 = "950" ∧
    formatCount 1500 = "1.5K" ∧
    formatCount 2300000 = "2.3M" ∧
    formatCount 1000000 = "1M" ∧
    (∀ n : Nat, n < 1000 → formatCount n = Nat.repr n) ∧
    (∀ n : Nat, 1000 ≤ n → n < 1000000 →
      formatCount n = renderTenths (round ((n : ℚ) / 1000 * 10)).toNat ++ "K") ∧
    (∀ n : Nat, 1000000 ≤ n →
      formatCount n = renderTenths (round ((n : ℚ) / 1000000 * 10)).toNat ++ "M") := by
  refine ⟨rfl, rfl, rfl, rfl, ?_, ?_, ?_⟩
  · intro n h
    by_cases h0 : n = 0
    · subst h0; rfl
    · have e0 : (n == 0) = false := by simpa using h0
      have l1 : ¬ n ≥ 1000000 := by omega
      have l2 : ¬ n ≥ 1000 := by omega
      simp [formatCount, e0, l1, l2]
  · intro n h1 h2
    have e0 : (n == 0) = false := by simp; omega
    have l1 : ¬ n ≥ 1000000 := by omega
    have hr := round_div_tenths n 1000 (by norm_num) (by norm_num)
    have ht : (round ((n : ℚ) / 1000 * 10)).toNat = (10 * n + 500) / 1000 := by
      norm_num at hr
      rw [hr]
      omega
    rw [ht]
    simp [formatCount, e0, l1, h1]
  · intro n h1
    have e0 : (n == 0) = false := by simp; omega
    have hr := round_div_tenths n 1000000 (by norm_num) (by norm_num)
    have ht : (round ((n : ℚ) / 1000000 * 10)).toNat
        = (10 * n + 500000) / 1000000 := by
      norm_num at hr
      rw [hr]
      omega
    rw [ht]
    simp [formatCount, e0, h1]

/-- C9 witness: the below-1000 branch at 42 and the K branch at 1500. -/
theorem formatCount_correct_witness :
    formatCount 42 = Nat.repr 42 ∧
    formatCount 1500
      = renderTenths (round ((1500 : ℚ) / 1000 * 10)).toNat ++ "K" :=
  ⟨formatCount_correct.2.2.2.2.1 42 (by norm_num),
   formatCount_correct.2.2.2.2.2.1 1500 (by norm_num) (by norm_num)⟩

theorem pageSlice_one {α : Type} (l : List α) (limit : Nat) :
    pageSlice l 1 limit = l.take limit := by
  simp [pageSlice, calculateSkip]

theorem pageSlice_shift {α : Type} (l : List α) (limit i : Nat) :
    pageSlice l (i + 2) limit = pageSlice (l.drop limit) (i + 1) limit := by
  simp [pageSlice, calculateSkip, List.drop_drop, Nat.succ_mul, Nat.add_comm]

theorem concatPages_succ {α : Type} (slice : List α → Nat → Nat → List α)
    (l : List α) (limit n : Nat) :
    concatPages slice l limit (n + 1)
      = slice l 1 limit
        ++ (List.range n).flatMap (fun i => slice l (i + 2) limit) := by
  simp [concatPages, List.range_succ_eq_map, List.flatMap_map, Function.comp]

/-- With enough pages to cover the whole list, concatenating the
skip/take page slices reproduces the list. -/
theorem concatPages_pageSlice_eq {α : Type} (limit : Nat) (hl : 1 ≤ limit) :
    ∀ (n : Nat) (l : List α), l.length ≤ n * limit →
      concatPages pageSlice l limit n = l
  | 0, l, h => by
      have : l = [] := List.eq_nil_of_length_eq_zero (by omega)
      simp [concatPages, this]
  | n + 1, l, h => by
      rw [concatPages_succ]
      have hshift : (fun i => pageSlice l (i + 2) limit)
          = (fun i => pageSlice (l.drop limit) (i + 1) limit) := by
        funext i
        exact pageSlice_shift l limit i
      have hlen : (l.drop limit).length ≤ n * limit := by
        rw [List.length_drop]
        rw [Nat.succ_mul] at h
        set P := n * limit with hP
        omega
      rw [hshift]
      rw [show (List.range n).flatMap (fun i => pageSlice (l.drop limit) (i + 1) limit)
            = concatPages pageSlice (l.drop limit) limit n from rfl]
      rw [concatPages_pageSlice_eq limit hl n (l.drop limit) hlen, pageSlice_one]
      exact List.take_append_drop limit l

/-- C7 amended.  For every stable ordering and `limit ≥ 1`, concatenating
the `calculateSkip`-based page slices over `totalPages` pages reproduces
the full result list (each item exactly once); the shorts listing's
clamped slice does the same only when `limit ≤ 50` (for `limit > 50` its
skip outruns its clamped take, see the counterexample). -/
theorem pagination_pages_cover (α : Type) [DecidableEq α] (l : List α)
    (limit : Nat) (hl : 1 ≤ limit) :
    concatPages pageSlice l limit
        ((buildPaginationResponse 1 limit l.length).totalPages) = l ∧
    (∀ a : α, (concatPages pageSlice l limit
        ((buildPaginationResponse 1 limit l.length).totalPages)).count a
      = l.count a) ∧
    (limit ≤ 50 →
      concatPages shortsPageSlice l limit
        ((buildPaginationResponse 1 limit l.length).totalPages) = l) := by
  have htp : l.length
      ≤ ((buildPaginationResponse 1 limit l.length).totalPages) * limit := by
    show l.length ≤ ((l.length + limit - 1) / limit) * limit
    have hdm := Nat.div_add_mod (l.length + limit - 1) limit
    have hml : (l.length + limit - 1) % limit < limit := Nat.mod_lt _ (by omega)
    rw [mul_comm]
    set P := limit * ((l.length + limit - 1) / limit) with hPd
    set r := (l.length + limit - 1) % limit with hrd
    omega
  have h1 := concatPages_pageSlice_eq limit hl _ l htp
  refine ⟨h1, by simp [h1], ?_⟩
  intro h50
  have heq : concatPages shortsPageSlice l limit
        ((buildPaginationResponse 1 limit l.length).totalPages)
      = concatPages pageSlice l limit
        ((buildPaginationResponse 1 limit l.length).totalPages) := by
    simp [concatPages, shortsPageSlice, pageSlice, Nat.min_eq_left h50]
  rw [heq]
  exact h1

/-- C7 counterexample.  On the shorts listing with `limit = 51` (clamped
slice size 50) the item at index 50 of a 52-item result set appears on no
page: page 1 returns items 0–49 and page 2 skips 51 items. -/
theorem shortsPagination_misses_items :
    (50 ∈ List.range 52) ∧
    50 ∉ concatPages shortsPageSlice (List.range 52) 51
        ((buildPaginationResponse 1 (min 51 50) (List.range 52).length).totalPages) := by
  decide

/-- C7 amended witness: five items, two per page. -/
theorem pagination_pages_cover_witness :
    concatPages pageSlice (List.range 5) 2
        ((buildPaginationResponse 1 2 (List.range 5).length).totalPages)
      = List.range 5 ∧
    concatPages shortsPageSlice (List.range 5) 2
        ((buildPaginationResponse 1 2 (List.range 5).length).totalPages)
      = List.range 5 :=
  ⟨(pagination_pages_cover Nat (List.range 5) 2 (by norm_num)).1,
   (pagination_pages_cover Nat (List.range 5) 2 (by norm_num)).2.2 (by norm_num)⟩

/-- C3. For every geo salon search, the assembled pipeline has the
`$geoNear` stage first, with `maxDistance` equal to the requested radius
(defaulting to 5000, validator-bounded to [100, 20000]); consequently
every record the pipeline returns has computed distance at most the
radius.  (`hden` records that the radius is a whole number of meters, as
produced by the controller's `parseInt(radius)`; the projection stage
rounds the distance field to whole units, and rounding below an integer
bound stays below it.) -/
theorem geoPipeline_radius_bound (p : GeoSearchParams) (R : ℚ)
    (docs : List SalonDoc) (hval : validateRadius p.radius = .ok R)
    (hden : R.den = 1) :
    (buildSalonGeoSearchPipeline p).head?
      = some (buildGeoNearStage p.lat p.lng R (buildSalonFilter p.filterParams)) ∧
    100 ≤ R ∧ R ≤ 20000 ∧
    ∀ d ∈ runPipeline (buildSalonGeoSearchPipeline p) docs,
      d.distanceMeters ≤ R := by
  have hgd : p.radius.getD 5000 = R ∧ 100 ≤ R ∧ R ≤ 20000 := by
    cases hr : p.radius with
    | none =>
        simp only [validateRadius, hr] at hval
        have : (5000 : ℚ) = R := by simpa using hval
        subst this
        exact ⟨rfl, by norm_num, by norm_num⟩
    | some r =>
        by_cases hin : 100 ≤ r ∧ r ≤ 20000
        · simp only [validateRadius, hr, hin, if_pos] at hval
          have : r = R := by simpa using hval
          subst this
          exact ⟨rfl, hin.1, hin.2⟩
        · simp [validateRadius, hr, hin] at hval
  refine ⟨?_, hgd.2.1, hgd.2.2, ?_⟩
  · simp [buildSalonGeoSearchPipeline, hgd.1]
  · intro d hd
    have hRcast : ((R.num : ℚ)) = R := R.den_eq_one_iff.mp hden
    simp only [runPipeline, buildSalonGeoSearchPipeline, buildGeoNearStage,
      List.foldl, evalStage, hgd.1] at hd
    have h2 := List.mem_of_mem_take hd
    have h3 := List.mem_of_mem_drop h2
    have h4 := (mem_insertionSortLe _ _ _).mp h3
    obtain ⟨d0, hd0, hproj⟩ := List.mem_map.mp h4
    have h5 := (mem_insertionSortLe _ _ _).mp hd0
    have h6 := (List.mem_filter.mp h5).2
    have h7 : d0.distanceMeters ≤ R := by
      simp only [Bool.and_eq_true, decide_eq_true_eq] at h6
      exact h6.1
    rw [← hproj]
    show ((round d0.distanceMeters : ℤ) : ℚ) ≤ R
    have h8 : round d0.distanceMeters ≤ round R := by
      rw [round_eq, round_eq]
      exact Int.floor_mono (by linarith)
    have h9 : round R = R.num := by
      conv_lhs => rw [← hRcast]
      exact round_intCast R.num
    have h10 : ((round d0.distanceMeters : ℤ) : ℚ) ≤ ((R.num : ℚ)) := by
      exact_mod_cast h9 ▸ h8
    rw [hRcast] at h10
    exact h10

/-- C3 witness: default radius 5000 over a one-document collection. -/
theorem geoPipeline_radius_bound_witness :
    (buildSalonGeoSearchPipeline { lat := 10, lng := 20 }).head?
      = some (buildGeoNearStage 10 20 5000 (buildSalonFilter {})) ∧
    (100 : ℚ) ≤ 5000 ∧ (5000 : ℚ) ≤ 20000 ∧
    ∀ d ∈ runPipeline (buildSalonGeoSearchPipeline { lat := 10, lng := 20 })
        [sampleSalonDoc], d.distanceMeters ≤ 5000 :=
  geoPipeline_radius_bound { lat := 10, lng := 20 } 5000 [sampleSalonDoc]
    rfl rfl

end Stylio
